import Mathlib

/-!
Shallow embedding of the dispute classification-and-resolution engine
(`src/classify.py`, `src/resolve.py`, `src/pipeline.py`).

Modelling conventions:
- A pandas cell that may be NaN is a `Cell` (`str` or `nan`); calling
  `.upper()` on NaN raises, modelled as `Except.error`.
- Timestamps are modelled abstractly as `TS`: a value `pd.to_datetime`
  parses to an instant (integer seconds), a malformed string (truthy,
  parse raises), or a missing/empty value (falsy).
- A transaction row's `customer_id` is `Option String`; `none` models the
  `customer_id` column being absent from the table, so reading it raises
  `KeyError`.
- Python exceptions are `PyErr`; fallible code returns `Except PyErr`.
- Monetary amounts are integers; confidences are exact rationals.
-/

/-- Python exception values that the modelled code can raise. -/
inductive PyErr where
  | keyError (k : String)
  | attributeError (msg : String)
  | valueError (msg : String)
deriving DecidableEq

/-- A pandas cell that is either a string or NaN (missing). -/
inductive Cell where
  | str (s : String)
  | nan
deriving DecidableEq

/-- ASCII `str.lower()` (descriptions and keywords in this code are
ASCII), written over the character list so it evaluates in the kernel. -/
def strLower (s : String) : String := ⟨s.data.map Char.toLower⟩

/-- ASCII `str.upper()`, written over the character list so it evaluates
in the kernel. -/
def strUpper (s : String) : String := ⟨s.data.map Char.toUpper⟩

/-- `cell.upper()`: uppercases a string, raises AttributeError on NaN. -/
def cellUpper : Cell → Except PyErr String
  | .str s => .ok (strUpper s)
  | .nan => .error (.attributeError "float object has no attribute upper")

/-- Raw equality of a cell against a string (`status == "FAILED"` etc.);
NaN compares unequal to every string. -/
def cellIs (c : Cell) (s : String) : Bool :=
  match c with
  | .str v => v == s
  | .nan => false

/-- `cell.lower()` on the string branch; only evaluated by the code on
cells already known to equal a string literal. -/
def cellLowerOrEmpty : Cell → String
  | .str s => strLower s
  | .nan => ""

/-- A timestamp field: a parseable instant (seconds), a malformed string,
or a missing/empty value. -/
inductive TS where
  | val (sec : Int)
  | malformed (raw : String)
  | missing
deriving DecidableEq

/-- Python truthiness of the raw timestamp string. -/
def TS.truthy : TS → Bool
  | .missing => false
  | _ => true

/-- `pd.to_datetime` on the timestamp field. -/
def parseTS : TS → Except PyErr Int
  | .val sec => .ok sec
  | .malformed raw => .error (.valueError raw)
  | .missing => .error (.valueError "empty")

/-- A transaction row. -/
structure Txn where
  txn_id : String
  amount : Int
  merchant : String
  timestamp : TS
  status : Cell
  channel : String
  customer_id : Option String
deriving DecidableEq

/-- Read `txn["customer_id"]`; KeyError when the column is absent. -/
def getCustomerId (t : Txn) : Except PyErr String :=
  match t.customer_id with
  | some c => .ok c
  | none => .error (.keyError "customer_id")

/-- A dispute row (`dispute_id`, `description`, `txn_id`, `amount`). -/
structure DisputeRow where
  dispute_id : String
  description : Cell
  txn_id : String
  amount : Int
deriving DecidableEq

/-- One output row of `classify_disputes`. -/
structure ClassifiedRecord where
  dispute_id : String
  txn_id : String
  amount : Int
  merchant : String
  channel : String
  predicted_category : String
  confidence : ℚ
  explanation : String
deriving DecidableEq

/-- One output row of `generate_resolutions`. -/
structure ResolutionRecord where
  dispute_id : String
  suggested_action : String
  justification : String
deriving DecidableEq

/-- Does `pat` occur at the head of the character list? -/
def leadMatch : List Char → List Char → Bool
  | [], _ => true
  | _ :: _, [] => false
  | a :: as, b :: bs => a == b && leadMatch as bs

/-- Does `pat` occur contiguously anywhere in the character list? -/
def charsContain (pat : List Char) : List Char → Bool
  | [] => leadMatch pat []
  | b :: bs => leadMatch pat (b :: bs) || charsContain pat bs

/-- Python's `pat in s` substring test. -/
def strContains (s pat : String) : Bool := charsContain pat.toList s.toList

/-- `description.lower() if isinstance(description, str) else ""`. -/
def descLower : Cell → String
  | .str s => strLower s
  | .nan => ""

/-- The duplicate-charge keyword list from `classify.py`. -/
def duplicate_keywords : List String :=
  ["charged twice", "duplicate charge", "double charge", "two debit messages",
   "duplicate transfer", "same merchant within minutes", "charged twice at",
   "duplicate upi", "same vpa", "minutes apart", "two upi debit", "got two",
   "same payment", "duplicate payment"]

/-- The failed-transaction keyword list from `classify.py`. -/
def failed_keywords : List String :=
  ["failed", "not refunded", "not received", "payment stuck", "pending"]

/-- The fraud keyword list from `classify.py`. -/
def fraud_keywords : List String :=
  ["fraud", "unauthorized", "not made this payment", "scam", "did not make",
   "didn\x27t authorize", "suspicious", "don\x27t recognize"]

/-- The refund-pending keyword list from `classify.py`. -/
def refund_keywords : List String :=
  ["waiting for refund", "refund pending", "still not refunded",
   "refund not received", "still waiting", "refund for canceled"]

/-- `f"Keyword match: '{kw}'"`. -/
def kwExpl (kw : String) : String := "Keyword match: \x27" ++ kw ++ "\x27"

/-- `f" + Found {n} duplicate transaction(s)"`. -/
def dupNote (n : Nat) : String :=
  " + Found " ++ toString n ++ " duplicate transaction(s)"

/-- `f" + Transaction status: {status}"`. -/
def statusNote (st : String) : String := " + Transaction status: " ++ st

/-- `f" + High amount: ₹{amount}"`. -/
def amountNote (a : Int) : String := " + High amount: ₹" ++ toString a

/-- `f" (Merchant: {merchant}, Channel: {channel})"`. -/
def othersCtx (m c : String) : String :=
  " (Merchant: " ++ m ++ ", Channel: " ++ c ++ ")"

/-- `transaction_data[transaction_data["txn_id"] == txn_id]` followed by
`.iloc[0]` when non-empty: first row whose id matches. -/
def lookupTxn (table : List Txn) (tid : String) : Option Txn :=
  (table.filter (fun t => t.txn_id == tid)).head?

/-- The `txn_details` computation at the top of `classify_dispute_enhanced`:
resolve the dispute's transaction when a table is given and `txn_id` is
truthy. -/
def txnDetailsOf (row : DisputeRow) (transaction_data : Option (List Txn)) :
    Option Txn :=
  match transaction_data with
  | none => none
  | some td => if row.txn_id != "" then lookupTxn td row.txn_id else none

/-- The timestamp-proximity loop of `find_duplicate_transactions`: collect
candidates within `window` seconds; any unparseable candidate timestamp
raises out of the loop. -/
def collectWithin (txn_time : Int) (window : Int) :
    List Txn → Except PyErr (List Txn)
  | [] => .ok []
  | d :: rest =>
    match parseTS d.timestamp with
    | .error e => .error e
    | .ok dt =>
      match collectWithin txn_time window rest with
      | .error e => .error e
      | .ok tail =>
        if ((txn_time - dt).natAbs : Int) ≤ window then .ok (d :: tail)
        else .ok tail

/-- `find_duplicate_transactions` from `classify.py`: same merchant and
amount, different id, timestamps within 300 seconds; the whole body is
wrapped in `try: ... except: return []`. -/
def find_duplicate_transactions (txn_details : Txn)
    (all_transactions : List Txn) : List Txn :=
  if txn_details.merchant != "" && txn_details.amount != 0 &&
      txn_details.timestamp.truthy then
    match parseTS txn_details.timestamp with
    | .error _ => []
    | .ok t =>
      let potential := all_transactions.filter (fun d =>
        d.merchant == txn_details.merchant && d.amount == txn_details.amount &&
        d.txn_id != txn_details.txn_id)
      match collectWithin t 300 potential with
      | .error _ => []
      | .ok l => l
  else []

/-- `classify_dispute_enhanced` from `classify.py`: ordered keyword rules
with transaction-context refinement; the status `.upper()` calls can
raise, nothing here catches. -/
def classify_dispute_enhanced (dispute_row : DisputeRow)
    (transaction_data : Option (List Txn))
    (all_transactions : Option (List Txn)) :
    Except PyErr (String × ℚ × String) :=
  let desc := descLower dispute_row.description
  let txn_details := txnDetailsOf dispute_row transaction_data
  match duplicate_keywords.find? (fun kw => strContains desc kw) with
  | some kw =>
    let explanation := kwExpl kw
    let explanation :=
      match txn_details, all_transactions with
      | some td, some all =>
        if td.merchant != "" && td.amount != 0 then
          let dups := find_duplicate_transactions td all
          if dups.length > 0 then explanation ++ dupNote dups.length
          else explanation
        else explanation
      | _, _ => explanation
    .ok ("DUPLICATE_CHARGE", 1, explanation)
  | none =>
  match failed_keywords.find? (fun kw => strContains desc kw) with
  | some kw =>
    match txn_details with
    | some td =>
      match cellUpper td.status with
      | .error e => .error e
      | .ok st =>
        if st == "FAILED" || st == "CANCELLED" then
          .ok ("FAILED_TRANSACTION", 1, kwExpl kw ++ statusNote st)
        else .ok ("FAILED_TRANSACTION", 9/10, kwExpl kw)
    | none => .ok ("FAILED_TRANSACTION", 9/10, kwExpl kw)
  | none =>
  match fraud_keywords.find? (fun kw => strContains desc kw) with
  | some kw =>
    if dispute_row.amount > 5000 then
      .ok ("FRAUD", 1, kwExpl kw ++ amountNote dispute_row.amount)
    else .ok ("FRAUD", 1, kwExpl kw)
  | none =>
  match refund_keywords.find? (fun kw => strContains desc kw) with
  | some kw =>
    match txn_details with
    | some td =>
      match cellUpper td.status with
      | .error e => .error e
      | .ok st =>
        if st == "CANCELLED" then
          .ok ("REFUND_PENDING", 1, kwExpl kw ++ statusNote st)
        else .ok ("REFUND_PENDING", 8/10, kwExpl kw)
    | none => .ok ("REFUND_PENDING", 8/10, kwExpl kw)
  | none =>
    match txn_details with
    | some td =>
      .ok ("OTHERS", 1/2,
        "No strong keyword match" ++ othersCtx td.merchant td.channel)
    | none => .ok ("OTHERS", 1/2, "No strong keyword match")

/-- The merchant/channel merge step of `classify_disputes`. -/
def merchantChannelOf (row : DisputeRow)
    (transactions_df : Option (List Txn)) : String × String :=
  match transactions_df with
  | none => ("", "")
  | some td =>
    if row.txn_id != "" then
      match lookupTxn td row.txn_id with
      | some t => (t.merchant, t.channel)
      | none => ("", "")
    else ("", "")

/-- `classify_disputes` from `classify.py`: per-row classification with no
per-record exception isolation — an error raised for one row aborts the
whole batch. -/
def classify_disputes (df : List DisputeRow)
    (transactions_df : Option (List Txn)) :
    Except PyErr (List ClassifiedRecord) :=
  match df with
  | [] => .ok []
  | row :: rest =>
    match classify_dispute_enhanced row transactions_df transactions_df with
    | .error e => .error e
    | .ok (category, confidence, explanation) =>
      let mc := merchantChannelOf row transactions_df
      match classify_disputes rest transactions_df with
      | .error e => .error e
      | .ok restRes =>
        .ok ({ dispute_id := row.dispute_id, txn_id := row.txn_id,
               amount := row.amount, merchant := mc.1, channel := mc.2,
               predicted_category := category, confidence := confidence,
               explanation := explanation } :: restRes)

/-- The scan loop of `is_duplicate`: any same-customer-same-amount row
within `time_window` seconds and with a different id returns `true`; an
unparseable timestamp raises. -/
def isDupScan (tid : String) (ts : Int) (time_window : Int) :
    List Txn → Except PyErr Bool
  | [] => .ok false
  | r :: rest =>
    match parseTS r.timestamp with
    | .error e => .error e
    | .ok ot =>
      if ((ts - ot).natAbs : Int) ≤ time_window && r.txn_id != tid then
        .ok true
      else isDupScan tid ts time_window rest

/-- `is_duplicate` from `resolve.py` (default `time_window=30`): reads the
`customer_id` column — KeyError when that column is absent — and compares
timestamps of same-customer, same-amount rows. -/
def is_duplicate (tid : String) (transactions_df : List Txn)
    (time_window : Int) : Except PyErr Bool :=
  match lookupTxn transactions_df tid with
  | none => .ok false
  | some txn =>
    match getCustomerId txn with
    | .error e => .error e
    | .ok customer =>
      match parseTS txn.timestamp with
      | .error e => .error e
      | .ok ts =>
        let nearby := transactions_df.filter (fun r =>
          r.customer_id == some customer && r.amount == txn.amount)
        isDupScan tid ts time_window nearby

/-- `suggest_resolution` from `resolve.py`: the category-keyed decision
table; exceptions from `is_duplicate` propagate. -/
def suggest_resolution (row : ClassifiedRecord)
    (transactions_df : List Txn) : Except PyErr ResolutionRecord :=
  let category := row.predicted_category
  if category == "DUPLICATE_CHARGE" then
    if row.txn_id != "" then
      match is_duplicate row.txn_id transactions_df 30 with
      | .error e => .error e
      | .ok true =>
        .ok ⟨row.dispute_id, "Auto-refund",
             "Duplicate transaction confirmed in system."⟩
      | .ok false =>
        .ok ⟨row.dispute_id, "Manual review",
             "Potential duplicate but not confirmed in system."⟩
    else
      .ok ⟨row.dispute_id, "Manual review",
           "Potential duplicate but not confirmed in system."⟩
  else if category == "FAILED_TRANSACTION" then
    match lookupTxn transactions_df row.txn_id with
    | some txn =>
      if cellIs txn.status "FAILED" || cellIs txn.status "CANCELLED" then
        .ok ⟨row.dispute_id, "Auto-refund",
             "Transaction " ++ cellLowerOrEmpty txn.status ++
             " in records; refund applicable."⟩
      else if cellIs txn.status "PENDING" then
        .ok ⟨row.dispute_id, "Manual review",
             "Transaction pending; needs manual verification."⟩
      else
        .ok ⟨row.dispute_id, "Ask for more info",
             "Transaction successful in records; needs clarification."⟩
    | none =>
      .ok ⟨row.dispute_id, "Ask for more info",
           "Transaction not found in system."⟩
  else if category == "FRAUD" then
    if row.amount > 5000 then
      .ok ⟨row.dispute_id, "Escalate to bank",
           "High-value fraud dispute requires bank escalation."⟩
    else if row.amount > 1000 then
      .ok ⟨row.dispute_id, "Mark as potential fraud",
           "Medium-value suspicious activity detected."⟩
    else
      .ok ⟨row.dispute_id, "Manual review",
           "Low-value fraud claim needs verification."⟩
  else if category == "REFUND_PENDING" then
    match lookupTxn transactions_df row.txn_id with
    | some txn =>
      if cellIs txn.status "CANCELLED" || cellIs txn.status "FAILED" then
        .ok ⟨row.dispute_id, "Auto-refund",
             "Transaction cancelled/failed; refund overdue."⟩
      else
        .ok ⟨row.dispute_id, "Manual review",
             "Refund process needs manual verification."⟩
    | none =>
      .ok ⟨row.dispute_id, "Manual review",
           "Transaction not found; manual investigation needed."⟩
  else if category == "OTHERS" then
    .ok ⟨row.dispute_id, "Ask for more info",
         "Dispute unclear, requires customer clarification."⟩
  else
    .ok ⟨row.dispute_id, "Ask for more info", "No strong rule applied."⟩

/-- `generate_resolutions` from `resolve.py`: per-row resolution with no
per-record exception isolation. -/
def generate_resolutions (disputes_df : List ClassifiedRecord)
    (transactions_df : List Txn) : Except PyErr (List ResolutionRecord) :=
  match disputes_df with
  | [] => .ok []
  | row :: rest =>
    match suggest_resolution row transactions_df with
    | .error e => .error e
    | .ok res =>
      match generate_resolutions rest transactions_df with
      | .error e => .error e
      | .ok restRes => .ok (res :: restRes)

/-- Step 1 of `pipeline.py`'s `main`: `classify_disputes(disputes_df)` is
called without the transactions table (its default `None`). -/
def pipeline_classify (disputes_df : List DisputeRow) :
    Except PyErr (List ClassifiedRecord) :=
  classify_disputes disputes_df none

/-- Does any keyword of the list occur in the description? -/
def ruleHit (kws : List String) (desc : String) : Bool :=
  kws.any (fun kw => strContains desc kw)

/-- Modelled from the spec: "first-match-wins over an ordered rule list" —
the category is determined by the first keyword list (in the fixed order
DUPLICATE_CHARGE, FAILED_TRANSACTION, FRAUD, REFUND_PENDING) with a hit,
else OTHERS.  Spec-side definition for the refinement claim C1. -/
def specFirstMatchCategory (desc : String) : String :=
  if ruleHit duplicate_keywords desc then "DUPLICATE_CHARGE"
  else if ruleHit failed_keywords desc then "FAILED_TRANSACTION"
  else if ruleHit fraud_keywords desc then "FRAUD"
  else if ruleHit refund_keywords desc then "REFUND_PENDING"
  else "OTHERS"

/-- Modelled from the spec: `find_near_duplicates` "returns all *other*
transactions (excluding `txn` itself by identifier) sharing the same
merchant and the same amount, whose timestamp lies within `window_seconds`
of `txn`'s timestamp (inclusive, absolute difference)"; "if merchant,
amount, or timestamp on `txn` is missing, returns an empty sequence"; and
malformed timestamps are "treated as non-matching (excluded from
results)".  Spec-side definition for the refinement claim C5. -/
def spec_find_near_duplicates (txn : Txn) (table : List Txn)
    (window_seconds : Int) : List Txn :=
  if txn.merchant = "" ∨ txn.amount = 0 ∨ txn.timestamp = TS.missing then []
  else
    match parseTS txn.timestamp with
    | .error _ => []
    | .ok t =>
      table.filter (fun d =>
        d.txn_id != txn.txn_id && d.merchant == txn.merchant &&
        d.amount == txn.amount &&
        match parseTS d.timestamp with
        | .error _ => false
        | .ok dt => decide (((t - dt).natAbs : Int) ≤ window_seconds))

lemma ruleHit_eq_isSome (kws : List String) (desc : String) :
    ruleHit kws desc =
      (kws.find? (fun kw => strContains desc kw)).isSome := by
  unfold ruleHit
  cases hf : kws.find? (fun kw => strContains desc kw) with
  | none =>
    simp only [Option.isSome_none]
    rw [List.any_eq_false]
    exact List.find?_eq_none.mp hf
  | some kw =>
    simp only [Option.isSome_some]
    exact List.any_eq_true.mpr
      ⟨kw, List.mem_of_find?_eq_some hf, List.find?_some hf⟩

lemma specFirstMatchCategory_mem (desc : String) :
    specFirstMatchCategory desc ∈
      ["DUPLICATE_CHARGE", "FAILED_TRANSACTION", "FRAUD", "REFUND_PENDING",
       "OTHERS"] := by
  unfold specFirstMatchCategory
  repeat' split
  all_goals simp

lemma classify_ok_cat {row : DisputeRow} {td all : Option (List Txn)}
    {cat : String} {conf : ℚ} {expl : String}
    (h : classify_dispute_enhanced row td all = .ok (cat, conf, expl)) :
    cat = specFirstMatchCategory (descLower row.description) := by
  simp only [classify_dispute_enhanced] at h
  unfold specFirstMatchCategory
  rw [ruleHit_eq_isSome, ruleHit_eq_isSome, ruleHit_eq_isSome,
    ruleHit_eq_isSome]
  repeat' split at h
  all_goals first
    | exact Except.noConfusion h
    | (simp only [Except.ok.injEq, Prod.mk.injEq] at h
       obtain ⟨hcat, hconf, hexpl⟩ := h
       subst hcat
       simp_all only [Option.isSome_some, Option.isSome_none]
       simp)

lemma classify_ok_conf_bounds {row : DisputeRow} {td all : Option (List Txn)}
    {cat : String} {conf : ℚ} {expl : String}
    (h : classify_dispute_enhanced row td all = .ok (cat, conf, expl)) :
    0 ≤ conf ∧ conf ≤ 1 := by
  simp only [classify_dispute_enhanced] at h
  repeat' split at h
  all_goals first
    | exact Except.noConfusion h
    | (simp only [Except.ok.injEq, Prod.mk.injEq] at h
       obtain ⟨h1, h2, h3⟩ := h
       subst h2
       constructor <;> norm_num)

/-- C1: classification is first-match-wins over the fixed rule order
DUPLICATE_CHARGE, FAILED_TRANSACTION, FRAUD, REFUND_PENDING — whenever
`classify_dispute_enhanced` returns, its category equals the
specification's first-match function of the lower-cased description; and a
description hitting any duplicate keyword always yields DUPLICATE_CHARGE
(so also when fraud keywords match as well). -/
theorem C1_first_match_wins :
    (∀ (row : DisputeRow) (td all : Option (List Txn)) (cat : String)
        (conf : ℚ) (expl : String),
        classify_dispute_enhanced row td all = .ok (cat, conf, expl) →
        cat = specFirstMatchCategory (descLower row.description)) ∧
    (∀ (row : DisputeRow) (td all : Option (List Txn)),
        ruleHit duplicate_keywords (descLower row.description) = true →
        ∃ conf expl, classify_dispute_enhanced row td all =
          .ok ("DUPLICATE_CHARGE", conf, expl)) := by
  constructor
  · intro row td all cat conf expl h
    exact classify_ok_cat h
  · intro row td all hhit
    rw [ruleHit_eq_isSome] at hhit
    obtain ⟨kw, hkw⟩ := Option.isSome_iff_exists.mp hhit
    simp only [classify_dispute_enhanced]
    rw [hkw]
    exact ⟨1, _, rfl⟩

/-- Witness for C1 at a concrete input: a description containing both a
duplicate keyword ("duplicate charge") and a fraud keyword ("fraud") is
classified DUPLICATE_CHARGE. -/
theorem C1_first_match_wins_witness :
    "DUPLICATE_CHARGE" =
      specFirstMatchCategory
        (descLower (Cell.str "Duplicate charge, looks like fraud")) ∧
    ∃ conf expl,
      classify_dispute_enhanced
        ⟨"D1", Cell.str "Duplicate charge, looks like fraud", "", 0⟩
        none none = .ok ("DUPLICATE_CHARGE", conf, expl) :=
  ⟨C1_first_match_wins.1
      ⟨"D1", Cell.str "Duplicate charge, looks like fraud", "", 0⟩
      none none "DUPLICATE_CHARGE" 1 (kwExpl "duplicate charge") rfl,
   C1_first_match_wins.2
      ⟨"D1", Cell.str "Duplicate charge, looks like fraud", "", 0⟩
      none none (by decide)⟩

/-- C4: for a classified dispute with category FRAUD the suggested action
depends only on the amount: `amount > 5000` gives "Escalate to bank",
`1000 < amount ≤ 5000` gives "Mark as potential fraud", and
`amount ≤ 1000` gives "Manual review". -/
theorem C4_fraud_resolution_by_amount :
    ∀ (row : ClassifiedRecord) (transactions_df : List Txn),
      row.predicted_category = "FRAUD" →
      (suggest_resolution row transactions_df).map
          (fun r => r.suggested_action) =
        .ok (if row.amount > 5000 then "Escalate to bank"
             else if row.amount > 1000 then "Mark as potential fraud"
             else "Manual review") := by
  intro row txns hcat
  simp only [suggest_resolution, hcat]
  repeat' split
  all_goals simp_all [Except.map]

/-- Witness for C4 at the spec's three sample amounts 7000, 3000, 500. -/
theorem C4_fraud_resolution_by_amount_witness :
    (suggest_resolution ⟨"D1", "T1", 7000, "", "", "FRAUD", 1, ""⟩ []).map
        (fun r => r.suggested_action) = .ok "Escalate to bank" ∧
    (suggest_resolution ⟨"D2", "T2", 3000, "", "", "FRAUD", 1, ""⟩ []).map
        (fun r => r.suggested_action) = .ok "Mark as potential fraud" ∧
    (suggest_resolution ⟨"D3", "T3", 500, "", "", "FRAUD", 1, ""⟩ []).map
        (fun r => r.suggested_action) = .ok "Manual review" := by
  refine ⟨?_, ?_, ?_⟩
  · have h := C4_fraud_resolution_by_amount
      ⟨"D1", "T1", 7000, "", "", "FRAUD", 1, ""⟩ [] rfl
    simpa using h
  · have h := C4_fraud_resolution_by_amount
      ⟨"D2", "T2", 3000, "", "", "FRAUD", 1, ""⟩ [] rfl
    simpa using h
  · have h := C4_fraud_resolution_by_amount
      ⟨"D3", "T3", 500, "", "", "FRAUD", 1, ""⟩ [] rfl
    simpa using h

/-- C10: `find_duplicate_transactions` returns the empty list whenever the
reference transaction's amount is 0 or its merchant is the empty string
(Python truthiness treats both as missing), regardless of the table. -/
theorem C10_zero_amount_empty_merchant :
    ∀ (txn : Txn) (all_transactions : List Txn),
      txn.amount = 0 ∨ txn.merchant = "" →
      find_duplicate_transactions txn all_transactions = [] := by
  intro txn all h
  unfold find_duplicate_transactions
  rcases h with h | h <;> simp [h]

/-- Witness for C10: a reference with amount 0 yields no duplicates even
though another transaction shares the merchant, amount 0 and a close
timestamp. -/
theorem C10_zero_amount_empty_merchant_witness :
    ((⟨"T1", 0, "M", .val 0, .str "COMPLETED", "", none⟩ : Txn).amount = 0 ∨
      (⟨"T1", 0, "M", .val 0, .str "COMPLETED", "", none⟩ : Txn).merchant =
        "") ∧
    find_duplicate_transactions
      ⟨"T1", 0, "M", .val 0, .str "COMPLETED", "", none⟩
      [⟨"T2", 0, "M", .val 10, .str "COMPLETED", "", none⟩] = [] :=
  ⟨Or.inl rfl,
   C10_zero_amount_empty_merchant
     ⟨"T1", 0, "M", .val 0, .str "COMPLETED", "", none⟩
     [⟨"T2", 0, "M", .val 10, .str "COMPLETED", "", none⟩] (Or.inl rfl)⟩

lemma lookupTxn_eq_none {tbl : List Txn} {tid : String}
    (h : ∀ t ∈ tbl, t.txn_id ≠ tid) : lookupTxn tbl tid = none := by
  unfold lookupTxn
  rw [List.head?_eq_none_iff, List.filter_eq_nil_iff]
  intro a ha
  simpa using h a ha

lemma lookupTxn_mem {tbl : List Txn} {tid : String} {u : Txn}
    (h : lookupTxn tbl tid = some u) : u ∈ tbl := by
  unfold lookupTxn at h
  exact (List.mem_filter.mp (List.mem_of_mem_head? h)).1

lemma lookupTxn_isSome_of_mem {tbl : List Txn} {tid : String}
    (h : ∃ t ∈ tbl, t.txn_id = tid) : ∃ u, lookupTxn tbl tid = some u := by
  obtain ⟨t, ht, htid⟩ := h
  rcases hu : lookupTxn tbl tid with _ | u
  · exfalso
    unfold lookupTxn at hu
    rw [List.head?_eq_none_iff, List.filter_eq_nil_iff] at hu
    exact hu t ht (by simp [htid])
  · exact ⟨u, rfl⟩

lemma txnDetailsOf_eq_none {row : DisputeRow} {tbl : List Txn}
    (h : ∀ t ∈ tbl, t.txn_id ≠ row.txn_id) :
    txnDetailsOf row (some tbl) = none := by
  unfold txnDetailsOf
  by_cases he : row.txn_id = ""
  · simp [he]
  · simp [he, lookupTxn_eq_none h]

/-- C7: a dispute whose lower-cased description hits a FAILED_TRANSACTION
keyword (and, by rule precedence, no duplicate keyword) and whose txn_id
is not in the transaction table is classified FAILED_TRANSACTION at base
confidence 0.9 with no status bump; and the resolution of any classified
FAILED_TRANSACTION record whose txn_id is absent from the table is
"Ask for more info". -/
theorem C7_failed_keyword_missing_txn :
    (∀ (row : DisputeRow) (tbl : List Txn),
      ruleHit failed_keywords (descLower row.description) = true →
      ruleHit duplicate_keywords (descLower row.description) = false →
      (∀ t ∈ tbl, t.txn_id ≠ row.txn_id) →
      classify_dispute_enhanced row (some tbl) (some tbl) =
        .ok ("FAILED_TRANSACTION", 9/10,
          ((failed_keywords.find? (fun kw =>
              strContains (descLower row.description) kw)).map
            kwExpl).getD "")) ∧
    (∀ (rec : ClassifiedRecord) (tbl : List Txn),
      rec.predicted_category = "FAILED_TRANSACTION" →
      (∀ t ∈ tbl, t.txn_id ≠ rec.txn_id) →
      (suggest_resolution rec tbl).map (fun r => r.suggested_action) =
        .ok "Ask for more info") := by
  constructor
  · intro row tbl hfail hdup habs
    have hdnone : duplicate_keywords.find? (fun kw =>
        strContains (descLower row.description) kw) = none := by
      rw [ruleHit_eq_isSome] at hdup
      exact Option.not_isSome_iff_eq_none.mp (by simp [hdup])
    rw [ruleHit_eq_isSome] at hfail
    obtain ⟨kw, hkw⟩ := Option.isSome_iff_exists.mp hfail
    have htd := txnDetailsOf_eq_none habs
    simp only [classify_dispute_enhanced, hdnone, hkw, htd]
    rfl
  · intro rec tbl hcat habs
    simp [suggest_resolution, hcat, lookupTxn_eq_none habs, Except.map]

/-- Witness for C7: description "payment failed" with a txn_id absent from
the table is classified FAILED_TRANSACTION at 0.9, and the corresponding
classified record resolves to "Ask for more info". -/
theorem C7_failed_keyword_missing_txn_witness :
    classify_dispute_enhanced
        ⟨"D0", Cell.str "payment failed", "TX", 100⟩
        (some [⟨"T1", 100, "M1", .val 0, .str "COMPLETED", "Web", none⟩])
        (some [⟨"T1", 100, "M1", .val 0, .str "COMPLETED", "Web", none⟩]) =
      .ok ("FAILED_TRANSACTION", 9/10,
        ((failed_keywords.find? (fun kw =>
            strContains (descLower (Cell.str "payment failed")) kw)).map
          kwExpl).getD "") ∧
    (suggest_resolution
        ⟨"D0", "TX", 100, "", "", "FAILED_TRANSACTION", 9/10,
          kwExpl "failed"⟩
        [⟨"T1", 100, "M1", .val 0, .str "COMPLETED", "Web", none⟩]).map
      (fun r => r.suggested_action) = .ok "Ask for more info" :=
  ⟨C7_failed_keyword_missing_txn.1
      ⟨"D0", Cell.str "payment failed", "TX", 100⟩
      [⟨"T1", 100, "M1", .val 0, .str "COMPLETED", "Web", none⟩]
      (by decide) (by decide) (by decide),
   C7_failed_keyword_missing_txn.2
      ⟨"D0", "TX", 100, "", "", "FAILED_TRANSACTION", 9/10, kwExpl "failed"⟩
      [⟨"T1", 100, "M1", .val 0, .str "COMPLETED", "Web", none⟩]
      rfl (by decide)⟩

/-- C8: with a transaction table holding only the documented columns (no
`customer_id`), resolving a DUPLICATE_CHARGE dispute whose (non-empty)
txn_id is present in the table raises KeyError("customer_id") from
`is_duplicate` instead of returning a resolution. -/
theorem C8_duplicate_customer_id_keyerror :
    ∀ (rec : ClassifiedRecord) (tbl : List Txn),
      (∀ t ∈ tbl, t.customer_id = none) →
      rec.predicted_category = "DUPLICATE_CHARGE" →
      rec.txn_id ≠ "" →
      (∃ t ∈ tbl, t.txn_id = rec.txn_id) →
      suggest_resolution rec tbl = .error (.keyError "customer_id") := by
  intro rec tbl hnone hcat hne hex
  obtain ⟨u, hu⟩ := lookupTxn_isSome_of_mem hex
  have hcust : u.customer_id = none := hnone u (lookupTxn_mem hu)
  simp only [suggest_resolution, hcat]
  simp only [is_duplicate, hu, getCustomerId, hcust]
  simp [hne]

/-- Witness for C8: a concrete DUPLICATE_CHARGE record whose transaction is
in a table without the `customer_id` column makes `suggest_resolution`
raise KeyError. -/
theorem C8_duplicate_customer_id_keyerror_witness :
    suggest_resolution
        ⟨"D1", "T1", 1500, "M1", "", "DUPLICATE_CHARGE", 1, ""⟩
        [⟨"T1", 1500, "M1", .val 0, .str "COMPLETED", "Web", none⟩] =
      .error (.keyError "customer_id") :=
  C8_duplicate_customer_id_keyerror
    ⟨"D1", "T1", 1500, "M1", "", "DUPLICATE_CHARGE", 1, ""⟩
    [⟨"T1", 1500, "M1", .val 0, .str "COMPLETED", "Web", none⟩]
    (by decide) rfl (by decide) (by decide)

lemma classify_none_ok (row : DisputeRow) (all : Option (List Txn)) :
    ∃ res, classify_dispute_enhanced row none all = .ok res := by
  simp only [classify_dispute_enhanced, txnDetailsOf]
  repeat' split
  all_goals exact ⟨_, rfl⟩

/-- The record `classify_disputes` emits for one dispute when no
transaction table is supplied: empty merchant/channel and the base-rule
classification.  The error arm is unreachable (`classify_none_ok`); it is
only here to make the function total. -/
def pipelineRecord (row : DisputeRow) : ClassifiedRecord :=
  match classify_dispute_enhanced row none none with
  | .ok (c, q, e) =>
    { dispute_id := row.dispute_id, txn_id := row.txn_id,
      amount := row.amount, merchant := "", channel := "",
      predicted_category := c, confidence := q, explanation := e }
  | .error _ =>
    { dispute_id := row.dispute_id, txn_id := row.txn_id,
      amount := row.amount, merchant := "", channel := "",
      predicted_category := "", confidence := 0, explanation := "" }

/-- C9: the pipeline's classification step calls `classify_disputes`
without the transactions table, so every emitted record has empty merchant
and channel and carries exactly the base-rule classification
(`classify_dispute_enhanced` with no transaction context): no
corroboration note, no status bump, no merchant/channel augmentation. -/
theorem C9_pipeline_base_rule_only :
    (∀ disputes_df : List DisputeRow,
      pipeline_classify disputes_df = .ok (disputes_df.map pipelineRecord)) ∧
    (∀ row : DisputeRow,
      (pipelineRecord row).merchant = "" ∧ (pipelineRecord row).channel = "" ∧
      classify_dispute_enhanced row none none =
        .ok ((pipelineRecord row).predicted_category,
             (pipelineRecord row).confidence,
             (pipelineRecord row).explanation)) := by
  constructor
  · intro df
    unfold pipeline_classify
    induction df with
    | nil => rfl
    | cons row rest ih =>
      obtain ⟨⟨c, q, e⟩, hres⟩ := classify_none_ok row none
      simp only [classify_disputes, List.map, hres, ih, merchantChannelOf,
        pipelineRecord]
  · intro row
    obtain ⟨⟨c, q, e⟩, hres⟩ := classify_none_ok row none
    simp [pipelineRecord, hres]

lemma classify_isOk_of_status_str :
    ∀ (row : DisputeRow) (td all : Option (List Txn)),
      (∀ t, txnDetailsOf row td = some t → t.status ≠ Cell.nan) →
      (classify_dispute_enhanced row td all).isOk = true := by
  intro row td all hst
  cases htd : txnDetailsOf row td with
  | none =>
    simp only [classify_dispute_enhanced, htd]
    repeat' split
    all_goals rfl
  | some t =>
    have hns := hst t htd
    cases hcell : t.status with
    | nan => exact absurd rfl (hcell ▸ hns)
    | str s =>
      simp only [classify_dispute_enhanced, htd, hcell, cellUpper]
      repeat' split
      all_goals rfl

/-- C2 (amended): classification returns a (category, confidence,
explanation) triple whenever the dispute's transaction is unresolvable or
the resolved transaction's status is a string; under that hypothesis for
every row, `classify_disputes` also succeeds on the whole batch.  (The
original claim fails: a resolvable transaction with a missing, non-string
status makes rules 2/4 raise AttributeError, and `classify_disputes`
propagates it, aborting the remaining records — see the
counterexample.) -/
theorem C2_classification_graceful_amended :
    (∀ (row : DisputeRow) (td all : Option (List Txn)),
      (∀ t, txnDetailsOf row td = some t → t.status ≠ Cell.nan) →
      (classify_dispute_enhanced row td all).isOk = true) ∧
    (∀ (df : List DisputeRow) (txns : Option (List Txn)),
      (∀ row ∈ df, ∀ t, txnDetailsOf row txns = some t →
        t.status ≠ Cell.nan) →
      (classify_disputes df txns).isOk = true) := by
  constructor
  · exact classify_isOk_of_status_str
  · intro df txns h
    induction df with
    | nil => rfl
    | cons row rest ih =>
      have h1 := classify_isOk_of_status_str row txns txns
        (h row (List.mem_cons_self row rest))
      have ih' := ih (fun r hr => h r (List.mem_cons_of_mem row hr))
      simp only [classify_disputes]
      cases hcl : classify_dispute_enhanced row txns txns with
      | error e =>
        rw [hcl] at h1
        exact absurd h1 (by simp [Except.isOk, Except.toBool])
      | ok res =>
        obtain ⟨c, q, e⟩ := res
        cases hrest : classify_disputes rest txns with
        | error e2 =>
          rw [hrest] at ih'
          exact absurd ih' (by simp [Except.isOk, Except.toBool])
        | ok rr => simp [hcl, hrest, Except.isOk, Except.toBool]

/-- Witness for the amended C2 at a concrete input whose transaction
resolves with a string status. -/
theorem C2_classification_graceful_amended_witness :
    (classify_dispute_enhanced ⟨"D1", Cell.str "payment failed", "T1", 100⟩
      (some [⟨"T1", 100, "M1", .val 0, .str "FAILED", "Web", none⟩])
      (some [⟨"T1", 100, "M1", .val 0, .str "FAILED", "Web", none⟩])).isOk =
      true ∧
    (classify_disputes [⟨"D1", Cell.str "payment failed", "T1", 100⟩]
      (some [⟨"T1", 100, "M1", .val 0, .str "FAILED", "Web", none⟩])).isOk =
      true :=
  ⟨C2_classification_graceful_amended.1
      ⟨"D1", Cell.str "payment failed", "T1", 100⟩
      (some [⟨"T1", 100, "M1", .val 0, .str "FAILED", "Web", none⟩])
      (some [⟨"T1", 100, "M1", .val 0, .str "FAILED", "Web", none⟩])
      (by
        intro t ht
        rw [show txnDetailsOf ⟨"D1", Cell.str "payment failed", "T1", 100⟩
            (some [⟨"T1", 100, "M1", .val 0, .str "FAILED", "Web", none⟩]) =
            some ⟨"T1", 100, "M1", .val 0, .str "FAILED", "Web", none⟩
          from rfl] at ht
        cases ht
        decide),
   C2_classification_graceful_amended.2
      [⟨"D1", Cell.str "payment failed", "T1", 100⟩]
      (some [⟨"T1", 100, "M1", .val 0, .str "FAILED", "Web", none⟩])
      (by
        intro r hr t ht
        rw [List.mem_singleton] at hr
        subst hr
        rw [show txnDetailsOf ⟨"D1", Cell.str "payment failed", "T1", 100⟩
            (some [⟨"T1", 100, "M1", .val 0, .str "FAILED", "Web", none⟩]) =
            some ⟨"T1", 100, "M1", .val 0, .str "FAILED", "Web", none⟩
          from rfl] at ht
        cases ht
        decide)⟩

/-- Counterexample to C2 as stated: a dispute matching a failed keyword
whose linked transaction has a missing (NaN) status makes
`classify_dispute_enhanced` raise AttributeError instead of returning a
triple, and `classify_disputes` propagates the error, so the second
(healthy) record is never processed. -/
theorem C2_classification_graceful_counterexample :
    classify_dispute_enhanced ⟨"D1", Cell.str "payment failed", "T1", 100⟩
        (some [⟨"T1", 100, "M1", .val 0, Cell.nan, "Web", some "C1"⟩])
        (some [⟨"T1", 100, "M1", .val 0, Cell.nan, "Web", some "C1"⟩]) =
      .error (.attributeError "float object has no attribute upper") ∧
    classify_disputes
        [⟨"D1", Cell.str "payment failed", "T1", 100⟩,
         ⟨"D2", Cell.str "this is fraud", "T9", 100⟩]
        (some [⟨"T1", 100, "M1", .val 0, Cell.nan, "Web", some "C1"⟩]) =
      .error (.attributeError "float object has no attribute upper") :=
  ⟨rfl, rfl⟩

/-- Counterexample to C3 as stated: on the spec's end-to-end example
(T1/T2 share merchant M1 and amount 1500, timestamps 120 s apart, with a
`customer_id` column so the duplicate check can run), dispute D1 is
classified DUPLICATE_CHARGE with confidence 1.0 as claimed, but its
resolution action is "Manual review", not "Auto-refund": 120 s exceeds the
resolution engine's 30-second confirmation window. -/
theorem C3_end_to_end_counterexample :
    classify_disputes [⟨"D1", Cell.str "I was charged twice", "T1", 1500⟩]
        (some [⟨"T1", 1500, "M1", .val 0, .str "COMPLETED", "", some "C1"⟩,
               ⟨"T2", 1500, "M1", .val 120, .str "COMPLETED", "", some "C1"⟩]) =
      .ok [⟨"D1", "T1", 1500, "M1", "", "DUPLICATE_CHARGE", 1,
            kwExpl "charged twice" ++ dupNote 1⟩] ∧
    (suggest_resolution
        ⟨"D1", "T1", 1500, "M1", "", "DUPLICATE_CHARGE", 1,
          kwExpl "charged twice" ++ dupNote 1⟩
        [⟨"T1", 1500, "M1", .val 0, .str "COMPLETED", "", some "C1"⟩,
         ⟨"T2", 1500, "M1", .val 120, .str "COMPLETED", "", some "C1"⟩]).map
      (fun r => r.suggested_action) = .ok "Manual review" ∧
    ("Manual review" : String) ≠ "Auto-refund" :=
  ⟨rfl, rfl, by decide⟩

/-- C3 (amended): on the end-to-end example, classification is
DUPLICATE_CHARGE at confidence 1.0 with a corroboration note — the
classifier's 300-second window finds T2 at 120 s — while the resolution
engine's separate 30-second window rejects T2 (120 > 30), so the
resolution is "Manual review".  The two windows are distinct constants
(300 s in `find_duplicate_transactions`, 30 s passed to
`is_duplicate`). -/
theorem C3_end_to_end_amended :
    classify_disputes [⟨"D1", Cell.str "I was charged twice", "T1", 1500⟩]
        (some [⟨"T1", 1500, "M1", .val 0, .str "COMPLETED", "", some "C1"⟩,
               ⟨"T2", 1500, "M1", .val 120, .str "COMPLETED", "", some "C1"⟩]) =
      .ok [⟨"D1", "T1", 1500, "M1", "", "DUPLICATE_CHARGE", 1,
            kwExpl "charged twice" ++ dupNote 1⟩] ∧
    find_duplicate_transactions
        ⟨"T1", 1500, "M1", .val 0, .str "COMPLETED", "", some "C1"⟩
        [⟨"T1", 1500, "M1", .val 0, .str "COMPLETED", "", some "C1"⟩,
         ⟨"T2", 1500, "M1", .val 120, .str "COMPLETED", "", some "C1"⟩] =
      [⟨"T2", 1500, "M1", .val 120, .str "COMPLETED", "", some "C1"⟩] ∧
    is_duplicate "T1"
        [⟨"T1", 1500, "M1", .val 0, .str "COMPLETED", "", some "C1"⟩,
         ⟨"T2", 1500, "M1", .val 120, .str "COMPLETED", "", some "C1"⟩] 30 =
      .ok false ∧
    (suggest_resolution
        ⟨"D1", "T1", 1500, "M1", "", "DUPLICATE_CHARGE", 1,
          kwExpl "charged twice" ++ dupNote 1⟩
        [⟨"T1", 1500, "M1", .val 0, .str "COMPLETED", "", some "C1"⟩,
         ⟨"T2", 1500, "M1", .val 120, .str "COMPLETED", "", some "C1"⟩]).map
      (fun r => r.suggested_action) = .ok "Manual review" :=
  ⟨rfl, rfl, rfl, rfl⟩


/-- Does the timestamp field parse (is it a well-formed instant)? -/
def TS.isVal : TS → Bool
  | .val _ => true
  | _ => false

lemma collectWithin_ok (t w : Int) :
    ∀ (l : List Txn), (∀ c ∈ l, c.timestamp.isVal = true) →
      collectWithin t w l = .ok (l.filter (fun d =>
        match parseTS d.timestamp with
        | .error _ => false
        | .ok dt => decide (((t - dt).natAbs : Int) ≤ w))) := by
  intro l hl
  induction l with
  | nil => rfl
  | cons c rest ih =>
    have hv := hl c (List.mem_cons_self c rest)
    obtain ⟨s, hs⟩ : ∃ s, c.timestamp = TS.val s := by
      cases h : c.timestamp <;> simp_all [TS.isVal]
    have ih' := ih (fun x hx => hl x (List.mem_cons_of_mem c hx))
    simp only [collectWithin, List.filter, hs, parseTS, ih']
    by_cases hle : ((t - s).natAbs : Int) ≤ w
    · simp only [hle, if_true, decide_eq_true_eq, decide_eq_true hle]
      rfl
    · simp only [if_neg hle, decide_eq_false hle]

/-- Counterexample to C5 as stated: T2 matches the reference T1 on
merchant, amount and the 300-second window, but because the third
candidate T3 (same merchant and amount) has a malformed timestamp, the
exception inside the loop sends `find_duplicate_transactions` to its
`except: return []` — the malformed candidate is not merely excluded as
non-matching, it discards the matching T2 as well. -/
theorem C5_near_duplicates_counterexample :
    find_duplicate_transactions
        ⟨"T1", 100, "M", .val 0, .str "COMPLETED", "", none⟩
        [⟨"T1", 100, "M", .val 0, .str "COMPLETED", "", none⟩,
         ⟨"T2", 100, "M", .val 10, .str "COMPLETED", "", none⟩,
         ⟨"T3", 100, "M", .malformed "not-a-date", .str "COMPLETED", "",
           none⟩] = [] ∧
    spec_find_near_duplicates
        ⟨"T1", 100, "M", .val 0, .str "COMPLETED", "", none⟩
        [⟨"T1", 100, "M", .val 0, .str "COMPLETED", "", none⟩,
         ⟨"T2", 100, "M", .val 10, .str "COMPLETED", "", none⟩,
         ⟨"T3", 100, "M", .malformed "not-a-date", .str "COMPLETED", "",
           none⟩] 300 =
      [⟨"T2", 100, "M", .val 10, .str "COMPLETED", "", none⟩] ∧
    ([] : List Txn) ≠
      [⟨"T2", 100, "M", .val 10, .str "COMPLETED", "", none⟩] :=
  ⟨rfl, rfl, by decide⟩

/-- C5 (amended): `find_duplicate_transactions` agrees with the spec's
`find_near_duplicates` at the 300-second window — exactly the other
transactions sharing merchant and amount within the inclusive window,
the empty list when the reference's merchant, amount or timestamp is
missing, and the empty list on an unparseable reference timestamp —
provided every other same-merchant, same-amount candidate's timestamp
parses.  (Without that proviso a single malformed candidate timestamp
empties the whole result; see the counterexample.) -/
theorem C5_near_duplicates_amended :
    ∀ (txn : Txn) (table : List Txn),
      (∀ c ∈ table, c.merchant = txn.merchant → c.amount = txn.amount →
        c.txn_id ≠ txn.txn_id → c.timestamp.isVal = true) →
      find_duplicate_transactions txn table =
        spec_find_near_duplicates txn table 300 := by
  intro txn table hpar
  unfold find_duplicate_transactions spec_find_near_duplicates
  by_cases hm : txn.merchant = ""
  · simp [hm]
  by_cases ha : txn.amount = 0
  · simp [hm, ha]
  by_cases hts : txn.timestamp = TS.missing
  · simp [hm, ha, hts, TS.truthy]
  · have htru : txn.timestamp.truthy = true := by
      cases h : txn.timestamp <;> simp_all [TS.truthy]
    rw [if_pos (show (txn.merchant != "" && txn.amount != 0 &&
        txn.timestamp.truthy) = true by simp [bne, hm, ha, htru])]
    rw [if_neg (show ¬(txn.merchant = "" ∨ txn.amount = 0 ∨
        txn.timestamp = TS.missing) by push_neg; exact ⟨hm, ha, hts⟩)]
    cases hp : parseTS txn.timestamp with
    | error e => rfl
    | ok t =>
      have hcw := collectWithin_ok t 300
        (table.filter (fun d => d.merchant == txn.merchant &&
          d.amount == txn.amount && d.txn_id != txn.txn_id))
        (by
          intro c hc
          obtain ⟨hcmem, hq⟩ := List.mem_filter.mp hc
          simp only [Bool.and_eq_true, beq_iff_eq, bne_iff_ne] at hq
          exact hpar c hcmem hq.1.1 hq.1.2 hq.2)
      simp only [hcw]
      rw [List.filter_filter]
      apply List.filter_congr
      intro x hx
      cases hpx : parseTS x.timestamp with
      | error e2 => simp [hpx]
      | ok dt =>
        simp only [hpx]
        cases hid : x.txn_id != txn.txn_id <;>
          cases hme : x.merchant == txn.merchant <;>
          cases ham : x.amount == txn.amount <;>
          cases hdt : (decide (((t - dt).natAbs : Int) ≤ 300)) <;> simp_all

/-- Witness for the amended C5: with all candidate timestamps parseable,
the code's search and the spec-side search agree on a concrete table (the
in-window T2 is returned, the out-of-window T4 is not). -/
theorem C5_near_duplicates_amended_witness :
    find_duplicate_transactions
        ⟨"T1", 100, "M", .val 0, .str "COMPLETED", "", none⟩
        [⟨"T1", 100, "M", .val 0, .str "COMPLETED", "", none⟩,
         ⟨"T2", 100, "M", .val 10, .str "COMPLETED", "", none⟩,
         ⟨"T4", 100, "M", .val 400, .str "COMPLETED", "", none⟩] =
      spec_find_near_duplicates
        ⟨"T1", 100, "M", .val 0, .str "COMPLETED", "", none⟩
        [⟨"T1", 100, "M", .val 0, .str "COMPLETED", "", none⟩,
         ⟨"T2", 100, "M", .val 10, .str "COMPLETED", "", none⟩,
         ⟨"T4", 100, "M", .val 400, .str "COMPLETED", "", none⟩] 300 :=
  C5_near_duplicates_amended
    ⟨"T1", 100, "M", .val 0, .str "COMPLETED", "", none⟩
    [⟨"T1", 100, "M", .val 0, .str "COMPLETED", "", none⟩,
     ⟨"T2", 100, "M", .val 10, .str "COMPLETED", "", none⟩,
     ⟨"T4", 100, "M", .val 400, .str "COMPLETED", "", none⟩]
    (by decide)

lemma classify_disputes_ok_mem :
    ∀ (df : List DisputeRow) (txns : Option (List Txn))
      (recs : List ClassifiedRecord) (r : ClassifiedRecord),
      classify_disputes df txns = .ok recs → r ∈ recs →
      ∃ row : DisputeRow, classify_dispute_enhanced row txns txns =
        .ok (r.predicted_category, r.confidence, r.explanation) := by
  intro df
  induction df with
  | nil =>
    intro txns recs r h hr
    simp only [classify_disputes, Except.ok.injEq] at h
    subst h
    cases hr
  | cons row rest ih =>
    intro txns recs r h hr
    simp only [classify_disputes] at h
    cases hcl : classify_dispute_enhanced row txns txns with
    | error e => simp only [hcl] at h; exact Except.noConfusion h
    | ok res =>
      obtain ⟨c, q, e⟩ := res
      simp only [hcl] at h
      cases hrest : classify_disputes rest txns with
      | error e2 => simp only [hrest] at h; exact Except.noConfusion h
      | ok rr =>
        simp only [hrest, Except.ok.injEq] at h
        subst h
        rcases List.mem_cons.mp hr with hr | hr
        · subst hr
          exact ⟨row, hcl⟩
        · exact ih txns rr r hrest hr

lemma suggest_resolution_ok_fields :
    ∀ (rec : ClassifiedRecord) (tbl : List Txn) (res : ResolutionRecord),
      suggest_resolution rec tbl = .ok res →
      res.dispute_id = rec.dispute_id ∧
      res.suggested_action ≠ "" ∧ res.justification ≠ "" := by
  intro rec tbl res h
  simp only [suggest_resolution] at h
  repeat' split at h
  all_goals first
    | exact Except.noConfusion h
    | (simp only [Except.ok.injEq] at h
       subst h
       refine ⟨rfl, ?_, ?_⟩ <;>
         first
           | decide
           | (intro hemp
              rw [String.ext_iff] at hemp
              simp [String.append] at hemp))

lemma generate_resolutions_ok_ids :
    ∀ (recs : List ClassifiedRecord) (tbl : List Txn)
      (out : List ResolutionRecord),
      generate_resolutions recs tbl = .ok out →
      out.map (fun x => x.dispute_id) = recs.map (fun x => x.dispute_id) := by
  intro recs
  induction recs with
  | nil =>
    intro tbl out h
    simp only [generate_resolutions, Except.ok.injEq] at h
    subst h
    rfl
  | cons rec rest ih =>
    intro tbl out h
    simp only [generate_resolutions] at h
    cases hsr : suggest_resolution rec tbl with
    | error e => simp only [hsr] at h; exact Except.noConfusion h
    | ok res =>
      simp only [hsr] at h
      cases hrest : generate_resolutions rest tbl with
      | error e2 => simp only [hrest] at h; exact Except.noConfusion h
      | ok rr =>
        simp only [hrest, Except.ok.injEq] at h
        subst h
        simp only [List.map]
        rw [(suggest_resolution_ok_fields rec tbl res hsr).1, ih tbl rr hrest]

/-- C6 (amended): every record `classify_disputes` emits has
predicted_category in the fixed five-value set and confidence in [0,1];
every resolution `suggest_resolution` returns carries a non-empty action
and a non-empty justification; and whenever `generate_resolutions`
succeeds it emits exactly one resolution per classified record, aligned by
dispute_id.  (The unconditional "exactly one resolution per classified
dispute" of the original claim fails: `generate_resolutions` can raise
KeyError through `is_duplicate` and then emits none — see the
counterexample.) -/
theorem C6_invariants_amended :
    (∀ (df : List DisputeRow) (txns : Option (List Txn))
        (recs : List ClassifiedRecord) (r : ClassifiedRecord),
        classify_disputes df txns = .ok recs → r ∈ recs →
        r.predicted_category ∈ ["DUPLICATE_CHARGE", "FAILED_TRANSACTION",
          "FRAUD", "REFUND_PENDING", "OTHERS"] ∧
        0 ≤ r.confidence ∧ r.confidence ≤ 1) ∧
    (∀ (rec : ClassifiedRecord) (tbl : List Txn) (res : ResolutionRecord),
        suggest_resolution rec tbl = .ok res →
        res.suggested_action ≠ "" ∧ res.justification ≠ "") ∧
    (∀ (recs : List ClassifiedRecord) (tbl : List Txn)
        (out : List ResolutionRecord),
        generate_resolutions recs tbl = .ok out →
        out.map (fun x => x.dispute_id) =
          recs.map (fun x => x.dispute_id)) := by
  refine ⟨?_, ?_, ?_⟩
  · intro df txns recs r h hr
    obtain ⟨row, hrow⟩ := classify_disputes_ok_mem df txns recs r h hr
    constructor
    · rw [classify_ok_cat hrow]
      exact specFirstMatchCategory_mem _
    · exact classify_ok_conf_bounds hrow
  · intro rec tbl res h
    exact (suggest_resolution_ok_fields rec tbl res h).2
  · exact generate_resolutions_ok_ids

/-- Witness for the amended C6 at a concrete OTHERS dispute: category in
the five-value set, confidence in [0,1], non-empty action and
justification, and one resolution aligned with the one classified
record. -/
theorem C6_invariants_amended_witness :
    (("OTHERS" : String) ∈ ["DUPLICATE_CHARGE", "FAILED_TRANSACTION",
        "FRAUD", "REFUND_PENDING", "OTHERS"] ∧
      (0 : ℚ) ≤ 1/2 ∧ (1/2 : ℚ) ≤ 1) ∧
    (("Ask for more info" : String) ≠ "" ∧
      ("Dispute unclear, requires customer clarification." : String) ≠ "") ∧
    ([(⟨"D1", "Ask for more info",
        "Dispute unclear, requires customer clarification."⟩ :
        ResolutionRecord)].map (fun x => x.dispute_id) =
      [(⟨"D1", "", 0, "", "", "OTHERS", 1/2, "No strong keyword match"⟩ :
        ClassifiedRecord)].map (fun x => x.dispute_id)) :=
  ⟨C6_invariants_amended.1 [⟨"D1", Cell.str "hello", "", 0⟩] none
      [⟨"D1", "", 0, "", "", "OTHERS", 1/2, "No strong keyword match"⟩]
      ⟨"D1", "", 0, "", "", "OTHERS", 1/2, "No strong keyword match"⟩
      rfl (List.Mem.head _),
   C6_invariants_amended.2.1
      ⟨"D1", "", 0, "", "", "OTHERS", 1/2, "No strong keyword match"⟩ []
      ⟨"D1", "Ask for more info",
        "Dispute unclear, requires customer clarification."⟩ rfl,
   C6_invariants_amended.2.2
      [⟨"D1", "", 0, "", "", "OTHERS", 1/2, "No strong keyword match"⟩] []
      [⟨"D1", "Ask for more info",
        "Dispute unclear, requires customer clarification."⟩] rfl⟩

/-- Counterexample to C6 as stated: a single classified DUPLICATE_CHARGE
dispute over a transaction table with only the documented columns (no
`customer_id`) yields zero resolutions — `generate_resolutions` raises
KeyError — so "exactly one resolution per classified dispute" fails. -/
theorem C6_invariants_counterexample :
    classify_disputes [⟨"D1", Cell.str "charged twice", "T1", 100⟩]
        (some [⟨"T1", 100, "M1", .val 0, .str "COMPLETED", "Web", none⟩]) =
      .ok [⟨"D1", "T1", 100, "M1", "Web", "DUPLICATE_CHARGE", 1,
            kwExpl "charged twice"⟩] ∧
    generate_resolutions
        [⟨"D1", "T1", 100, "M1", "Web", "DUPLICATE_CHARGE", 1,
          kwExpl "charged twice"⟩]
        [⟨"T1", 100, "M1", .val 0, .str "COMPLETED", "Web", none⟩] =
      .error (.keyError "customer_id") :=
  ⟨rfl, rfl⟩
